import Mathlib

/-!
Verification of the prettyconf loader chain and resolution engine.

The Python source (src/prettyconf/{configuration,loaders,sources}.py) is
shallowly embedded below: each Python class becomes a structure holding the
mutable attributes of an instance, each method becomes a function returning
its result (as an Except, since methods can raise) together with the updated
instance where the method mutates state.  Process-global inputs that Python
reads implicitly (os.environ, the filesystem behind a Source's streams, the
glob results of a directory) are passed as explicit arguments.
-/

namespace Prettyconf

/-- A Python dict of str to str, modelled as an association list in insertion
order.  `dict.update(other)` appends; a lookup takes the value of the last
matching pair, which is exactly the last-write-wins value semantics of
`update` on a Python dict.  Emptiness of the list coincides with emptiness of
the dict, since pairs are only ever added. -/
abbrev Dict := List (String × String)

/-- Value lookup in a Python dict: the value written last for the key wins. -/
def pyDictGet (d : Dict) (k : String) : Option String :=
  (d.reverse.find? (fun p => p.1 == k)).map (fun p => p.2)

/-- dict.update: entries of `other` override entries of `d`. -/
def pyDictUpdate (d other : Dict) : Dict := d ++ other

/-- Modelled from the spec: the exception kinds raised by the core
(prettyconf.exceptions is not under src/; its classes are referenced by the
loaders).  Per the spec's error taxonomy and propagation policy, KeyError
(builtin, the not-found signal), TypeError (builtin), InvalidConfigurationFile
and UnknownConfiguration are distinct and only the not-found signal is ever
swallowed by the chain. -/
inductive Err where
  | keyError (key : String)
  | typeError (msg : String)
  | invalidConfigurationFile (msg : String)
  | unknownConfiguration (msg : String)
  deriving DecidableEq

/-- A single quote character, used by Python repr and error messages. -/
def squote : String := String.singleton (Char.ofNat 39)

/-- Python repr of a simple string: the string wrapped in single quotes. -/
def pyRepr (s : String) : String := squote ++ s ++ squote

/-- One stream produced by a Source's get_streams(): its `.name` (the file
name) and the outcome of feeding it to the env-file parser.  The parser is an
external collaborator (spec section 1); its behaviour on a given stream is
therefore carried as data: either the parsed mapping or a ParserError. -/
structure Stream' where
  name : String
  parsed : Except Unit Dict

/-- FileSource (sources.py 33-50), reduced to what loaders consume: the
sequence of streams get_streams() yields (streams of missing files are
silently skipped by the generator, so only the existing files appear, in
order). -/
structure FileSource where
  streams : List Stream'

/-- A Python value passed as the `source` argument of get_config: None, a
FileSource instance, or a Source of some other kind. -/
inductive SourceArg where
  | noneSrc
  | file (fs : FileSource)
  | other

/-- Python truthiness fallback `source = source or self._source`
(loaders.py line 90): None is falsy, any Source object is truthy. -/
def SourceArg.orElse' (source bound : SourceArg) : SourceArg :=
  match source with
  | SourceArg.noneSrc => bound
  | s => s

/-! ## CommandLine loader (loaders.py 48-165) -/

/-- The value of one parsed argparse destination: either the NOT_SET sentinel
(the NotSet str subclass, loaders.py 48-60) or an actual value. -/
inductive ArgValue where
  | notSet
  | val (s : String)
  deriving DecidableEq

/-- get_args (loaders.py 63-76): converts the parse result of an argparse
parser (modelled as the list of (dest, value) pairs that
`vars(parser.parse_known_args(args)[0])` yields) to a dict, dismissing every
argument whose value is still the NOT_SET sentinel. -/
def get_args (parsedArgs : List (String × ArgValue)) : Dict :=
  parsedArgs.filterMap fun kv =>
    match kv.2 with
    | ArgValue.notSet => none
    | ArgValue.val s => some (kv.1, s)

/-- CommandLine (loaders.py 137-165).  `parser` stands for the stored argparse
parser together with what parsing would yield; `args` is the stored argument
list.  `configs` is the internal mapping. -/
structure CommandLine where
  parser : List (String × ArgValue)
  args : Option (List String)
  configs : Dict

/-- CommandLine.__init__ (loaders.py 142-156): stores the parser and args and
sets `self.configs = {}`.  get_args is never invoked: the `_load` that would
call it is commented out (lines 158-159). -/
def CommandLine.init (parser : List (String × ArgValue))
    (args : Option (List String)) : CommandLine :=
  { parser := parser, args := args, configs := [] }

/-- CommandLine._get_config (loaders.py 161-162): `return self.configs[key]`,
a direct mapping access; a missing key raises KeyError(key). -/
def CommandLine.getConfig (l : CommandLine) (key : String) : Except Err String :=
  match pyDictGet l.configs key with
  | some v => Except.ok v
  | none => Except.error (Err.keyError key)

/-! ## IniFile loader (loaders.py 210-246) -/

/-- IniFile (loaders.py 210-246).  `parserSections` is the state of the
ConfigParser built in __init__: its sections with their options.
`sectionName` is the Python attribute `section` (a Lean keyword). -/
structure IniFile where
  filename : String
  sectionName : String
  var_format : String → String
  parserSections : List (String × Dict)
  initialized : Bool

/-- IniFile.__init__ (loaders.py 213-224): stores filename, section and
var_format, builds a fresh ConfigParser (which has no sections) and sets
`self._initialized = False`.  The `_load` that would read the file is
commented out (lines 226-237). -/
def IniFile.init (filename sectionName : String) (var_format : String → String) :
    IniFile :=
  { filename := filename, sectionName := sectionName, var_format := var_format,
    parserSections := [], initialized := false }

/-- ConfigParser.get(section, option): NoSectionError when the section is
absent, NoOptionError when the option is absent within it; both modelled as
`none`. -/
def configParserGet (sections : List (String × Dict)) (sec opt : String) :
    Option String :=
  match (sections.find? (fun p => p.1 == sec)).map (fun p => p.2) with
  | none => none
  | some d => pyDictGet d opt

/-- IniFile._get_config (loaders.py 242-246): delegates to ConfigParser.get
and maps NoSectionError/NoOptionError to `KeyError(repr(key))`. -/
def IniFile.getConfig (l : IniFile) (key : String) : Except Err String :=
  match configParserGet l.parserSections l.sectionName (l.var_format key) with
  | some v => Except.ok v
  | none => Except.error (Err.keyError (pyRepr key))

/-! ## Environment loader (loaders.py 249-273) -/

/-- Environment (loaders.py 249-273): var_format and the mutable configs
cache. -/
structure Environment where
  var_format : String → String
  configs : Dict

/-- Environment.__init__ (loaders.py 256-263): `self.configs = {}`. -/
def Environment.init (var_format : String → String) : Environment :=
  { var_format := var_format, configs := [] }

/-- The lookup half of Environment._get_config (loaders.py 269-270):
`key = self.var_format(key); return self.configs[key]`. -/
def Environment.lookupStep (l : Environment) (key : String) :
    Except Err String × Environment :=
  match pyDictGet l.configs (l.var_format key) with
  | some v => (Except.ok v, l)
  | none => (Except.error (Err.keyError (l.var_format key)), l)

/-- Environment._get_config (loaders.py 265-270): when the cache is empty
(Python truthiness of the dict) it is replaced by a copy of os.environ, then
the formatted key is looked up.  `osEnviron` is the current process
environment at call time. -/
def Environment.getConfig (l : Environment) (osEnviron : Dict) (key : String) :
    Except Err String × Environment :=
  Environment.lookupStep
    (if l.configs.isEmpty then { l with configs := osEnviron } else l) key

/-! ## EnvFile loader (loaders.py 168-207) -/

/-- EnvFile (loaders.py 168-207): var_format and the mutable configs cache.
The parser attribute is the external EnvFileParser collaborator, whose
behaviour per stream is carried in `Stream'.parsed`; the bound source is
passed per call as the stream list it yields. -/
structure EnvFile where
  var_format : String → String
  configs : Dict

/-- EnvFile.__init__ (loaders.py 172-190): `self.configs = {}`. -/
def EnvFile.init (var_format : String → String) : EnvFile :=
  { var_format := var_format, configs := [] }

/-- EnvFile._load (loaders.py 195-201): for each stream of the source, in
order, parse it; on a ParserError raise
`InvalidConfigurationFile(f'Error parsing {stream.name}')`, otherwise merge
the parsed pairs into the cache by dict.update.  Returns the instance as
mutated so far, plus the raised error if any. -/
def EnvFile.load (l : EnvFile) : List Stream' → EnvFile × Option Err
  | [] => (l, none)
  | s :: rest =>
    match s.parsed with
    | Except.error _ =>
      (l, some (Err.invalidConfigurationFile ("Error parsing " ++ s.name)))
    | Except.ok configs =>
      EnvFile.load { l with configs := pyDictUpdate l.configs configs } rest

/-- The lookup half of EnvFile._get_config (loaders.py 207):
`return self.configs[self.var_format(key)]`. -/
def EnvFile.lookupStep (l : EnvFile) (key : String) :
    Except Err String × EnvFile :=
  match pyDictGet l.configs (l.var_format key) with
  | some v => (Except.ok v, l)
  | none => (Except.error (Err.keyError (l.var_format key)), l)

/-- EnvFile._get_config (loaders.py 203-207): when the cache is empty (Python
truthiness of the dict) run `_load(source)` first, then look the formatted key
up in the cache.  `streams` is what `source.get_streams()` yields at this
call. -/
def EnvFile.getConfig (l : EnvFile) (streams : List Stream') (key : String) :
    Except Err String × EnvFile :=
  if l.configs.isEmpty then
    match EnvFile.load l streams with
    | (l2, some e) => (Except.error e, l2)
    | (l2, none) => EnvFile.lookupStep l2 key
  else
    EnvFile.lookupStep l key

/-- AbstractConfigurationLoader.get_config (loaders.py 87-91) as inherited by
EnvFile, whose `source_type` is FileSource (line 169).  Line 88 raises
`TypeError(f'Source is not a {self.source_type.__class__.__name__} instance')`
whenever `isinstance(source, FileSource)` is false, which includes
source = None; `self.source_type.__class__.__name__` is the metaclass name
`type`.  Line 90, `source = source or self._source`, can therefore never
select the bound source when `source_type` is set: every falsy `source` was
already rejected by the isinstance check, so after the guard `source` is a
FileSource and truthy (the inner default arm is unreachable). -/
def EnvFile.getConfigPub (l : EnvFile) (bound source : SourceArg) (key : String) :
    Except Err String × EnvFile :=
  match source with
  | SourceArg.file fs =>
    match SourceArg.orElse' (SourceArg.file fs) bound with
    | SourceArg.file fs2 => l.getConfig fs2.streams key
    | _ => (Except.error (Err.typeError "Source is not a type instance"), l)
  | _ => (Except.error (Err.typeError "Source is not a type instance"), l)

/-! ## Loaders chain manager (loaders.py 23-45) -/

/-- Loaders.get_config (loaders.py 34-41): iterate the ordered loader list; a
loader's KeyError means "continue with the next loader"; any other exception
propagates; when the list is exhausted raise KeyError(key).  A loader is
viewed at a single call as the function from the queried key to the outcome of
its own get_config. -/
def Loaders.getConfig (loaders : List (String → Except Err String))
    (key : String) : Except Err String :=
  match loaders with
  | [] => Except.error (Err.keyError key)
  | l :: rest =>
    match l key with
    | Except.ok v => Except.ok v
    | Except.error (Err.keyError _) => Loaders.getConfig rest key
    | Except.error e => Except.error e

/-! ## Configuration resolver (configuration.py 35-47) -/

/-- A Python value that the resolver can hold in its `config` variable: None,
or a string (the raw values produced by loaders and the interesting defaults
are strings; the case split on None is what lines 44-45 test). -/
inductive PyVal where
  | noneVal
  | str (s : String)
  deriving DecidableEq

/-- kwargs.get('default') (configuration.py 42): None when the caller passed
no default, otherwise the value passed - so an explicit default=None yields
None exactly like passing nothing. -/
def kwargsGetDefault : Option PyVal → PyVal
  | Option.none => PyVal.noneVal
  | Option.some v => v

/-- The cast argument of Configuration.__call__: a Python object that either
is callable (carrying the function it computes) or is not. -/
inductive Cast where
  | notCallable
  | callable (f : PyVal → PyVal)

/-- Configuration.__call__ lines 44-47: `if config is None: raise
UnknownConfiguration(f"Configuration '{item}' not found")` and then
`return cast(config)`. -/
def Configuration.finish (f : PyVal → PyVal) (item : String) (config : PyVal) :
    Except Err PyVal :=
  if config = PyVal.noneVal then
    Except.error (Err.unknownConfiguration
      ("Configuration " ++ squote ++ item ++ squote ++ " not found"))
  else
    Except.ok (f config)

/-- Configuration.__call__ (configuration.py 35-47) given the outcome of the
chain query: raise TypeError("Cast must be callable") when cast is not
callable; query the chain, catching only KeyError, in which case the config
falls back to kwargs.get('default'); any other chain exception propagates;
finally the None-check and the cast application. -/
def Configuration.call (chainResult : Except Err String) (cast : Cast)
    (item : String) (default : Option PyVal) : Except Err PyVal :=
  match cast with
  | Cast.notCallable => Except.error (Err.typeError "Cast must be callable")
  | Cast.callable f =>
    match chainResult with
    | Except.ok v => Configuration.finish f item (PyVal.str v)
    | Except.error (Err.keyError _) =>
      Configuration.finish f item (kwargsGetDefault default)
    | Except.error e => Except.error e

/-- Configuration.__call__ wired to its loaders_manager: the chain result is
`self.loaders_manager.get_config(item, source)` (line 40). -/
def Configuration.callFull (loaders : List (String → Except Err String))
    (item : String) (cast : Cast) (default : Option PyVal) : Except Err PyVal :=
  Configuration.call (Loaders.getConfig loaders item) cast item default

/-- Reference definition (from the spec's resolver steps 2-3): the final
post-fallback value of a resolver call - the chain's value when the chain
found one, otherwise kwargs.get('default'). -/
def resolvedConfig : Except Err String → Option PyVal → PyVal
  | Except.ok v, _ => PyVal.str v
  | Except.error _, d => kwargsGetDefault d

/-! ## RecursiveFileSearchSource.find_all (sources.py 99-109) -/

/-- os.path.dirname on an absolute directory path, with paths modelled as
their component lists (the root directory is []); dirname drops the last
component. -/
def dirname (p : List String) : List String := p.dropLast

/-- The `set(patterns)` on sources.py line 100: duplicate patterns are
dropped.  Python set iteration order is unspecified (the spec flags this as an
open issue); the model keeps the last occurrence of each pattern. -/
def dedupPatterns : List String → List String
  | [] => []
  | p :: ps =>
    if p ∈ dedupPatterns ps then dedupPatterns ps else p :: dedupPatterns ps

/-- The inner pattern loop of find_all (sources.py 104-107): glob each pattern
against the directory and yield every match.  `glob` is the filesystem-
dependent expansion of `os.path.join(dir, pattern)` (external collaborator). -/
def globAll (glob : List String → String → List String)
    (patterns : List String) (dir : List String) : List String :=
  match patterns with
  | [] => []
  | p :: ps => glob dir p ++ globAll glob ps dir

/-- The while loop of find_all (sources.py 103-109): while the current path
differs from root_path, yield the matches of this directory level, then go up
one directory.  The loop variable strictly shortens whenever it moves, so a
fuel of the start path's length plus one is exact whenever root_path lies on
the upward walk.  NOTE sources.py line 102 reads `self.starting_path`, an
attribute RecursiveFileSearchSource never defines (its constructor sets
`_start_path`, exposed as the property `start_path`), so in Python every call
raises AttributeError before this loop runs; the loop is modelled with the
start path value that line plainly intends to read. -/
def findAllLoop (glob : List String → String → List String)
    (patterns : List String) (rootPath : List String) :
    Nat → List String → List String
  | 0, _ => []
  | Nat.succ fuel, startPath =>
    if startPath = rootPath then []
    else
      globAll glob patterns startPath
        ++ findAllLoop glob patterns rootPath fuel (dirname startPath)

/-- RecursiveFileSearchSource.find_all (sources.py 99-109). -/
def findAll (glob : List String → String → List String)
    (patterns : List String) (rootPath startPath : List String) : List String :=
  findAllLoop glob (dedupPatterns patterns) rootPath (startPath.length + 1)
    startPath

/-! ## Helper lemmas -/

/-- A dict in which some lookup succeeds is not empty. -/
theorem pyDictGet_isEmpty_false (d : Dict) (k v : String)
    (h : pyDictGet d k = some v) : d.isEmpty = false := by
  cases d with
  | nil => simp [pyDictGet] at h
  | cons a t => rfl

/-- A glob table for the boundary test: exactly one file, sitting in the root
directory, matching the pattern .env. -/
def globAtRoot (dir : List String) (pat : String) : List String :=
  if dir.isEmpty && (pat == ".env") then ["/.env"] else []

/-! ## Claim theorems -/

/-- C1: For a loader with a required source kind - EnvFile, whose source_type
is FileSource - get_config raises the TypeError type-mismatch signal on a
mismatched override, but ALSO (contrary to the claim) when no override is
given: with source = None the isinstance check of loaders.py line 88 fires
before the bound-source fallback of line 90 can run, so the loader never falls
back to its bound source; only an explicit FileSource override reaches the
lazy load-then-lookup. -/
theorem c1_envfile_source_check (l : EnvFile) (bound : SourceArg) (key : String) :
    l.getConfigPub bound SourceArg.noneSrc key
      = (Except.error (Err.typeError "Source is not a type instance"), l)
    ∧ l.getConfigPub bound SourceArg.other key
      = (Except.error (Err.typeError "Source is not a type instance"), l)
    ∧ ∀ fs : FileSource,
        l.getConfigPub bound (SourceArg.file fs) key = l.getConfig fs.streams key :=
  ⟨rfl, rfl, fun _ => rfl⟩

/-- C4: find_all misses the root_path directory level.  globAtRoot places a
match exactly at the root; walking up from /home/user with root_path = / (or
even starting at the root itself) yields nothing, because the while loop of
sources.py line 103 exits as soon as the walk reaches root_path, before that
level is globbed - contrary to the claim that root_path is processed before
the walk stops.  (In the Python source the call in fact dies even earlier:
line 102 reads the nonexistent attribute `starting_path` and raises
AttributeError.) -/
theorem c4_find_all_misses_root :
    globAtRoot [] ".env" = ["/.env"]
    ∧ findAll globAtRoot [".env"] [] ["home", "user"] = []
    ∧ findAll globAtRoot [".env"] [] [] = [] := by
  refine ⟨by decide, by decide, by decide⟩

/-- C5: CommandLine's internal mapping is NOT populated at construction time:
__init__ (loaders.py 156) sets configs to the empty dict and never calls
get_args (the _load that would is commented out), so get_config raises
KeyError for every key - including keys that the parser did parse from the
command line.  The third conjunct shows the mapping get_args would have
produced (the NOT_SET sentinel excluded), which construction discards. -/
theorem c5_commandline_unpopulated (parser : List (String × ArgValue))
    (args : Option (List String)) (key : String) :
    (CommandLine.init parser args).configs = []
    ∧ (CommandLine.init parser args).getConfig key
      = Except.error (Err.keyError key)
    ∧ get_args [("FOO", ArgValue.val "bar"), ("other", ArgValue.notSet)]
      = [("FOO", "bar")] :=
  ⟨rfl, rfl, rfl⟩

/-- C9: IniFile's loading step is absent (its _load is commented out,
loaders.py 226-237), so the ConfigParser built at construction keeps zero
sections forever and every section/key lookup raises NoSectionError, mapped to
KeyError(repr(key)): get_config raises the not-found signal for every key,
whatever the filename, section, var_format or key.  Consequently appending an
IniFile to any loader chain never changes the chain's outcome. -/
theorem c9_inifile_always_keyerror (filename sec : String)
    (vf : String → String) (key : String)
    (pre : List (String → Except Err String)) :
    (IniFile.init filename sec vf).getConfig key
      = Except.error (Err.keyError (pyRepr key))
    ∧ Loaders.getConfig
        (pre ++ [fun k => (IniFile.init filename sec vf).getConfig k]) key
      = Loaders.getConfig pre key := by
  constructor
  · rfl
  · induction pre with
    | nil => rfl
    | cons p ps ih =>
      show Loaders.getConfig (p :: (ps ++ [_])) key = _
      rw [Loaders.getConfig, Loaders.getConfig]
      cases hp : p key with
      | ok v => rfl
      | error e => cases e <;> simp [ih]

/-- C10: the load-once cache is keyed on the cache being non-empty, not on a
loaded flag.  A first load that produces an empty mapping - Environment
snapshotting an empty process environment, EnvFile reading a source whose
single stream parses to an empty mapping - leaves the instance
indistinguishable from a fresh one, so the very next lookup re-attempts the
full load (re-snapshots the environment, re-reads the source's streams). -/
theorem c10_empty_load_retries (vf vf2 : String → String) (k k2 nm : String)
    (env2 : Dict) (streams2 : List Stream') :
    ((Environment.init vf).getConfig [] k).2 = Environment.init vf
    ∧ (((Environment.init vf).getConfig [] k).2).getConfig env2 k2
      = (Environment.init vf).getConfig env2 k2
    ∧ ((EnvFile.init vf2).getConfig [⟨nm, Except.ok []⟩] k).2 = EnvFile.init vf2
    ∧ (((EnvFile.init vf2).getConfig [⟨nm, Except.ok []⟩] k).2).getConfig
        streams2 k2
      = (EnvFile.init vf2).getConfig streams2 k2 :=
  ⟨rfl, rfl, rfl, rfl⟩

/-- A chain whose loaders each either return a value or raise KeyError (the
loader contract) itself either returns a value or raises KeyError carrying the
queried key. -/
theorem chainContract (loaders : List (String → Except Err String))
    (key : String)
    (hl : ∀ l ∈ loaders, (∃ v, l key = Except.ok v)
        ∨ (∃ k, l key = Except.error (Err.keyError k))) :
    (∃ v, Loaders.getConfig loaders key = Except.ok v)
    ∨ Loaders.getConfig loaders key = Except.error (Err.keyError key) := by
  induction loaders with
  | nil => exact Or.inr rfl
  | cons l rest ih =>
    rcases hl l (List.mem_cons_self l rest) with ⟨v, hv⟩ | ⟨k, hk⟩
    · exact Or.inl ⟨v, by rw [Loaders.getConfig, hv]⟩
    · have h2 := ih (fun p hp => hl p (List.mem_cons_of_mem l hp))
      rw [Loaders.getConfig, hk]
      exact h2

/-- C3: chain precedence and exhaustion.  First, with the loaders before
position i all signalling not-found for the key and the loader at position i
holding the value, the chain returns that value whatever the later loaders
hold (they are never consulted).  Second, when every loader in the chain
signals not-found, the chain raises KeyError carrying the queried key
(loaders.py line 41) rather than producing any default. -/
theorem c3_chain_precedence (pre post : List (String → Except Err String))
    (l : String → Except Err String) (key v : String)
    (hpre : ∀ p ∈ pre, ∃ k, p key = Except.error (Err.keyError k))
    (hl : l key = Except.ok v) :
    Loaders.getConfig (pre ++ l :: post) key = Except.ok v
    ∧ ∀ loaders : List (String → Except Err String),
        (∀ p ∈ loaders, ∃ k, p key = Except.error (Err.keyError k)) →
        Loaders.getConfig loaders key = Except.error (Err.keyError key) := by
  constructor
  · induction pre with
    | nil => rw [List.nil_append, Loaders.getConfig, hl]
    | cons p ps ih =>
      obtain ⟨k, hk⟩ := hpre p (List.mem_cons_self p ps)
      rw [List.cons_append, Loaders.getConfig, hk]
      exact ih (fun q hq => hpre q (List.mem_cons_of_mem p hq))
  · intro loaders hall
    induction loaders with
    | nil => rfl
    | cons p ps ih =>
      obtain ⟨k, hk⟩ := hall p (List.mem_cons_self p ps)
      rw [Loaders.getConfig, hk]
      exact ih (fun q hq => hall q (List.mem_cons_of_mem p hq))

/-- C3 witness: a two-loader chain where the first loader misses FOO and the
second holds it. -/
theorem c3_chain_precedence_witness :
    Loaders.getConfig
      ([fun k => Except.error (Err.keyError k)]
        ++ (fun _ => Except.ok "1") :: [fun _ => Except.ok "2"]) "FOO"
      = Except.ok "1"
    ∧ ∀ loaders : List (String → Except Err String),
        (∀ p ∈ loaders, ∃ k, p "FOO" = Except.error (Err.keyError k)) →
        Loaders.getConfig loaders "FOO" = Except.error (Err.keyError "FOO") :=
  c3_chain_precedence [fun k => Except.error (Err.keyError k)]
    [fun _ => Except.ok "2"] (fun _ => Except.ok "1") "FOO" "1"
    (by intro p hp
        rw [List.mem_singleton] at hp
        exact ⟨"FOO", by rw [hp]⟩)
    rfl

/-- C2: resolution with a callable cast is total with exactly three outcomes -
the chain's value returned after cast, a caller-supplied non-None default
returned after cast when every loader signals not-found, or the
UnknownConfiguration failure naming the key - and passing default=None behaves
exactly like passing no default (kwargs.get('default') yields None either
way). -/
theorem c2_resolver_trichotomy (loaders : List (String → Except Err String))
    (item : String) (f : PyVal → PyVal) (default : Option PyVal)
    (hl : ∀ l ∈ loaders, (∃ v, l item = Except.ok v)
        ∨ (∃ k, l item = Except.error (Err.keyError k))) :
    ((∃ v, Loaders.getConfig loaders item = Except.ok v
        ∧ Configuration.callFull loaders item (Cast.callable f) default
          = Except.ok (f (PyVal.str v)))
      ∨ (∃ d, default = some d ∧ d ≠ PyVal.noneVal
        ∧ Loaders.getConfig loaders item = Except.error (Err.keyError item)
        ∧ Configuration.callFull loaders item (Cast.callable f) default
          = Except.ok (f d))
      ∨ Configuration.callFull loaders item (Cast.callable f) default
          = Except.error (Err.unknownConfiguration
              ("Configuration " ++ squote ++ item ++ squote ++ " not found")))
    ∧ Configuration.callFull loaders item (Cast.callable f) (some PyVal.noneVal)
      = Configuration.callFull loaders item (Cast.callable f) Option.none := by
  constructor
  · rcases chainContract loaders item hl with ⟨v, hv⟩ | hmiss
    · exact Or.inl ⟨v, hv, by
        simp [Configuration.callFull, hv, Configuration.call,
          Configuration.finish]⟩
    · match hd : default with
      | Option.none =>
        exact Or.inr (Or.inr (by
          simp [Configuration.callFull, hmiss, Configuration.call,
            kwargsGetDefault, Configuration.finish]))
      | Option.some PyVal.noneVal =>
        exact Or.inr (Or.inr (by
          simp [Configuration.callFull, hmiss, Configuration.call,
            kwargsGetDefault, Configuration.finish]))
      | Option.some (PyVal.str s) =>
        exact Or.inr (Or.inl ⟨PyVal.str s, rfl, by simp, hmiss, by
          simp [Configuration.callFull, hmiss, Configuration.call,
            kwargsGetDefault, Configuration.finish]⟩)
  · cases hc : Loaders.getConfig loaders item with
    | ok v => simp [Configuration.callFull, hc, Configuration.call]
    | error e =>
      cases e <;>
        simp [Configuration.callFull, hc, Configuration.call, kwargsGetDefault]

/-- C2 witness: an empty chain (every loader - vacuously - signals not-found)
with a string default, exercising the default-fallback outcome. -/
theorem c2_resolver_trichotomy_witness :
    ((∃ v, Loaders.getConfig [] "X" = Except.ok v
        ∧ Configuration.callFull [] "X" (Cast.callable (fun v => v))
            (some (PyVal.str "d")) = Except.ok (PyVal.str v))
      ∨ (∃ d, some (PyVal.str "d") = some d ∧ d ≠ PyVal.noneVal
        ∧ Loaders.getConfig [] "X" = Except.error (Err.keyError "X")
        ∧ Configuration.callFull [] "X" (Cast.callable (fun v => v))
            (some (PyVal.str "d")) = Except.ok d)
      ∨ Configuration.callFull [] "X" (Cast.callable (fun v => v))
            (some (PyVal.str "d"))
          = Except.error (Err.unknownConfiguration
              ("Configuration " ++ squote ++ "X" ++ squote ++ " not found")))
    ∧ Configuration.callFull [] "X" (Cast.callable (fun v => v))
        (some PyVal.noneVal)
      = Configuration.callFull [] "X" (Cast.callable (fun v => v))
        Option.none :=
  c2_resolver_trichotomy [] "X" (fun v => v) (some (PyVal.str "d"))
    (fun l hl => absurd hl (List.not_mem_nil l))

/-- C8: a non-callable cast makes the resolver fail with
TypeError("Cast must be callable") whatever the loader chain holds - the
validation happens before any loader is queried - and with a callable cast the
resolver returns exactly the cast applied once to the final post-fallback
value (resolvedConfig), uniformly whether that value came from the chain or
from the caller-supplied default. -/
theorem c8_cast_validation (loaders : List (String → Except Err String))
    (item : String) (f : PyVal → PyVal) (default : Option PyVal)
    (hl : ∀ l ∈ loaders, (∃ v, l item = Except.ok v)
        ∨ (∃ k, l item = Except.error (Err.keyError k)))
    (hne : resolvedConfig (Loaders.getConfig loaders item) default
        ≠ PyVal.noneVal) :
    (∀ anyLoaders : List (String → Except Err String),
        Configuration.callFull anyLoaders item Cast.notCallable default
          = Except.error (Err.typeError "Cast must be callable"))
    ∧ Configuration.callFull loaders item (Cast.callable f) default
      = Except.ok
          (f (resolvedConfig (Loaders.getConfig loaders item) default)) := by
  constructor
  · intro anyLoaders; rfl
  · rcases chainContract loaders item hl with ⟨v, hv⟩ | hmiss
    · rw [Configuration.callFull, hv]
      simp [Configuration.call, Configuration.finish, resolvedConfig, hv]
    · rw [Configuration.callFull, hmiss]
      rw [hmiss] at hne
      simp only [resolvedConfig] at hne ⊢
      simp [Configuration.call, Configuration.finish, hne]

/-- C8 witness: a one-loader chain holding the key; the callable cast is
applied once to the chain's value. -/
theorem c8_cast_validation_witness :
    (∀ anyLoaders : List (String → Except Err String),
        Configuration.callFull anyLoaders "K" Cast.notCallable
            (some (PyVal.str "d"))
          = Except.error (Err.typeError "Cast must be callable"))
    ∧ Configuration.callFull [fun _ => Except.ok "v"] "K"
        (Cast.callable (fun v => v)) (some (PyVal.str "d"))
      = Except.ok
          ((fun v => v)
            (resolvedConfig (Loaders.getConfig [fun _ => Except.ok "v"] "K")
              (some (PyVal.str "d")))) :=
  c8_cast_validation [fun _ => Except.ok "v"] "K" (fun v => v)
    (some (PyVal.str "d"))
    (by intro l hl
        rw [List.mem_singleton] at hl
        exact Or.inl ⟨"v", by rw [hl]⟩)
    (by decide)

/-- The key-value pairs of a stream list in stream order: the concatenation of
every successfully parsed mapping. -/
def streamsPairs : List Stream' → Dict
  | [] => []
  | s :: rest =>
    (match s.parsed with
     | Except.ok d => d
     | Except.error _ => []) ++ streamsPairs rest

/-- When every stream parses, _load merges each parsed mapping into the cache
in stream order (dict.update after dict.update) and raises nothing. -/
theorem envfile_load_ok (vf : String → String) (streams : List Stream') :
    ∀ c : Dict, (∀ s ∈ streams, ∃ d, s.parsed = Except.ok d) →
    EnvFile.load { var_format := vf, configs := c } streams
      = ({ var_format := vf, configs := c ++ streamsPairs streams }, none) := by
  induction streams with
  | nil => intro c _; simp [EnvFile.load, streamsPairs]
  | cons s rest ih =>
    intro c hok
    obtain ⟨d, hd⟩ := hok s (List.mem_cons_self s rest)
    simp only [EnvFile.load, hd, streamsPairs, pyDictUpdate]
    rw [ih (c ++ d) (fun t ht => hok t (List.mem_cons_of_mem s ht))]
    simp [List.append_assoc]

/-- When the streams up to some point parse and the next one does not, _load
raises InvalidConfigurationFile naming that stream. -/
theorem envfile_load_err (vf : String → String) (goods : List Stream')
    (bad : Stream') (rest : List Stream') :
    ∀ c : Dict, (∀ s ∈ goods, ∃ d, s.parsed = Except.ok d) →
    bad.parsed = Except.error () →
    (EnvFile.load { var_format := vf, configs := c } (goods ++ bad :: rest)).2
      = some (Err.invalidConfigurationFile ("Error parsing " ++ bad.name)) := by
  induction goods with
  | nil => intro c _ hb; simp [EnvFile.load, hb]
  | cons s gs ih =>
    intro c hg hb
    obtain ⟨d, hd⟩ := hg s (List.mem_cons_self s gs)
    simp only [List.cons_append, EnvFile.load, hd]
    exact ih (pyDictUpdate c d) (fun t ht => hg t (List.mem_cons_of_mem s ht)) hb

/-- C6: load-once caching.  Once a loader instance's cache has been populated
by a first successful lookup (the lookup returned a value, so the cache is
non-empty), every later lookup on that instance is answered from the cache:
the result of any subsequent Environment lookup does not depend on the process
environment passed at that call, and the result of any subsequent EnvFile
lookup does not depend on the streams the (possibly mutated) env file source
would now yield. -/
theorem c6_load_once (vf vf2 : String → String) (env1 : Dict) (k1 v1 : String)
    (streams1 : List Stream') (k2 v2 : String)
    (henv : ((Environment.init vf).getConfig env1 k1).1 = Except.ok v1)
    (hfile : ((EnvFile.init vf2).getConfig streams1 k2).1 = Except.ok v2) :
    (∀ envA envB k,
        (((Environment.init vf).getConfig env1 k1).2).getConfig envA k
          = (((Environment.init vf).getConfig env1 k1).2).getConfig envB k)
    ∧ (∀ strA strB k,
        (((EnvFile.init vf2).getConfig streams1 k2).2).getConfig strA k
          = (((EnvFile.init vf2).getConfig streams1 k2).2).getConfig strB k) := by
  constructor
  · have h1 : Environment.getConfig (Environment.init vf) env1 k1
        = Environment.lookupStep { var_format := vf, configs := env1 } k1 := rfl
    rw [h1] at henv
    have hs : (Environment.lookupStep { var_format := vf, configs := env1 } k1).2
        = { var_format := vf, configs := env1 } := by
      unfold Environment.lookupStep
      cases pyDictGet env1 (vf k1) <;> rfl
    have he : env1.isEmpty = false := by
      unfold Environment.lookupStep at henv
      cases hg : pyDictGet env1 (vf k1) with
      | none => rw [hg] at henv; simp at henv
      | some w => exact pyDictGet_isEmpty_false env1 (vf k1) w hg
    intro envA envB k
    rw [h1, hs]
    simp [Environment.getConfig, he]
  · have h1 : EnvFile.getConfig (EnvFile.init vf2) streams1 k2
        = (match EnvFile.load (EnvFile.init vf2) streams1 with
           | (l2, some e) => (Except.error e, l2)
           | (l2, none) => EnvFile.lookupStep l2 k2) := rfl
    rw [h1] at hfile
    cases hload : EnvFile.load (EnvFile.init vf2) streams1 with
    | mk l2 e2 =>
      rw [hload] at hfile
      cases e2 with
      | some e => simp at hfile
      | none =>
        have hfile2 : (EnvFile.lookupStep l2 k2).1 = Except.ok v2 := hfile
        have he : l2.configs.isEmpty = false := by
          unfold EnvFile.lookupStep at hfile2
          cases hg : pyDictGet l2.configs (l2.var_format k2) with
          | none => rw [hg] at hfile2; simp at hfile2
          | some w => exact pyDictGet_isEmpty_false _ _ w hg
        have hs : (EnvFile.getConfig (EnvFile.init vf2) streams1 k2).2 = l2 := by
          rw [h1, hload]
          show (EnvFile.lookupStep l2 k2).2 = l2
          unfold EnvFile.lookupStep
          cases pyDictGet l2.configs (l2.var_format k2) <;> rfl
        intro strA strB k
        rw [hs]
        simp [EnvFile.getConfig, he]

/-- C6 witness: an Environment first lookup against the environment A=1 and an
EnvFile first lookup against a single stream parsing to A=1, both successful;
later lookups on either instance are environment- and stream-independent. -/
theorem c6_load_once_witness :
    (∀ envA envB k,
        (((Environment.init (fun s => s)).getConfig [("A", "1")] "A").2).getConfig
            envA k
          = (((Environment.init (fun s => s)).getConfig [("A", "1")] "A").2).getConfig
            envB k)
    ∧ (∀ strA strB k,
        (((EnvFile.init (fun s => s)).getConfig
            [⟨"f", Except.ok [("A", "1")]⟩] "A").2).getConfig strA k
          = (((EnvFile.init (fun s => s)).getConfig
            [⟨"f", Except.ok [("A", "1")]⟩] "A").2).getConfig strB k) :=
  c6_load_once (fun s => s) (fun s => s) [("A", "1")] "A" "1"
    [⟨"f", Except.ok [("A", "1")]⟩] "A" "1" rfl rfl

/-- C7: EnvFile first-lookup load semantics.  When every stream parses, _load
reads and merges all streams in stream order into the cache - so a lookup
returns the last-write-wins value over the concatenated pairs, i.e. the value
from the latest stream that binds the key.  When a stream fails to parse
(every stream before it parsing), the lookup fails with
InvalidConfigurationFile naming that stream; placed in a chain, this failure
propagates as-is - it is not converted into chain fallthrough to the remaining
loaders, whatever they are. -/
theorem c7_envfile_load_semantics (vf : String → String)
    (streams goods rest : List Stream') (bad : Stream')
    (hok : ∀ s ∈ streams, ∃ d, s.parsed = Except.ok d)
    (hg : ∀ s ∈ goods, ∃ d, s.parsed = Except.ok d)
    (hb : bad.parsed = Except.error ()) :
    (EnvFile.load (EnvFile.init vf) streams
      = ({ var_format := vf, configs := streamsPairs streams }, none))
    ∧ (∀ key, ((EnvFile.init vf).getConfig streams key).1
        = match pyDictGet (streamsPairs streams) (vf key) with
          | some v => Except.ok v
          | none => Except.error (Err.keyError (vf key)))
    ∧ (∀ key, ((EnvFile.init vf).getConfig (goods ++ bad :: rest) key).1
        = Except.error
            (Err.invalidConfigurationFile ("Error parsing " ++ bad.name)))
    ∧ (∀ restLoaders key,
        Loaders.getConfig
          ((fun k => ((EnvFile.init vf).getConfig (goods ++ bad :: rest) k).1)
            :: restLoaders) key
        = Except.error
            (Err.invalidConfigurationFile ("Error parsing " ++ bad.name))) := by
  have hload := envfile_load_ok vf streams [] hok
  rw [List.nil_append] at hload
  have hload1 : EnvFile.load (EnvFile.init vf) streams
      = ({ var_format := vf, configs := streamsPairs streams }, none) := hload
  have part2 : ∀ key, ((EnvFile.init vf).getConfig streams key).1
      = match pyDictGet (streamsPairs streams) (vf key) with
        | some v => Except.ok v
        | none => Except.error (Err.keyError (vf key)) := by
    intro key
    have h1 : EnvFile.getConfig (EnvFile.init vf) streams key
        = (match EnvFile.load (EnvFile.init vf) streams with
           | (l2, some e) => (Except.error e, l2)
           | (l2, none) => EnvFile.lookupStep l2 key) := rfl
    rw [h1, hload1]
    cases hg2 : pyDictGet (streamsPairs streams) (vf key) <;>
      simp [EnvFile.lookupStep, hg2]
  have part3 : ∀ key,
      ((EnvFile.init vf).getConfig (goods ++ bad :: rest) key).1
      = Except.error
          (Err.invalidConfigurationFile ("Error parsing " ++ bad.name)) := by
    intro key
    have h1 : EnvFile.getConfig (EnvFile.init vf) (goods ++ bad :: rest) key
        = (match EnvFile.load (EnvFile.init vf) (goods ++ bad :: rest) with
           | (l2, some e) => (Except.error e, l2)
           | (l2, none) => EnvFile.lookupStep l2 key) := rfl
    have herr : ((EnvFile.init vf).load (goods ++ bad :: rest)).2
        = some (Err.invalidConfigurationFile ("Error parsing " ++ bad.name)) :=
      envfile_load_err vf goods bad rest [] hg hb
    rw [h1]
    cases hl2 : EnvFile.load (EnvFile.init vf) (goods ++ bad :: rest) with
    | mk l2 e2 =>
      rw [hl2] at herr
      cases e2 with
      | none => simp at herr
      | some e => simp at herr; simp [herr]
  refine ⟨hload1, part2, part3, ?_⟩
  intro restLoaders key
  simp only [Loaders.getConfig]
  rw [part3 key]

/-- C7 witness: two streams both binding K (the later one wins: the lookup
yields 2, the value of stream b), and a failing load whose one good stream is
followed by the unparsable stream boom; the chain error names boom and is not
converted into fallthrough. -/
theorem c7_envfile_load_semantics_witness :
    (EnvFile.load (EnvFile.init (fun s => s))
        [⟨"a", Except.ok [("K", "1")]⟩, ⟨"b", Except.ok [("K", "2")]⟩]
      = ({ var_format := fun s => s,
           configs := streamsPairs
             [⟨"a", Except.ok [("K", "1")]⟩, ⟨"b", Except.ok [("K", "2")]⟩] },
         none))
    ∧ (∀ key, ((EnvFile.init (fun s => s)).getConfig
          [⟨"a", Except.ok [("K", "1")]⟩, ⟨"b", Except.ok [("K", "2")]⟩] key).1
        = match pyDictGet (streamsPairs
            [⟨"a", Except.ok [("K", "1")]⟩, ⟨"b", Except.ok [("K", "2")]⟩])
            ((fun s => s) key) with
          | some v => Except.ok v
          | none => Except.error (Err.keyError ((fun s => s) key)))
    ∧ (∀ key, ((EnvFile.init (fun s => s)).getConfig
          ([⟨"a", Except.ok [("K", "1")]⟩] ++ ⟨"boom", Except.error ()⟩ :: []) key).1
        = Except.error
            (Err.invalidConfigurationFile ("Error parsing " ++ "boom")))
    ∧ (∀ restLoaders key,
        Loaders.getConfig
          ((fun k => ((EnvFile.init (fun s => s)).getConfig
              ([⟨"a", Except.ok [("K", "1")]⟩]
                ++ ⟨"boom", Except.error ()⟩ :: []) k).1)
            :: restLoaders) key
        = Except.error
            (Err.invalidConfigurationFile ("Error parsing " ++ "boom"))) :=
  c7_envfile_load_semantics (fun s => s)
    [⟨"a", Except.ok [("K", "1")]⟩, ⟨"b", Except.ok [("K", "2")]⟩]
    [⟨"a", Except.ok [("K", "1")]⟩] [] ⟨"boom", Except.error ()⟩
    (by intro s hs
        rcases List.mem_cons.mp hs with h | h2
        · exact ⟨[("K", "1")], by rw [h]⟩
        · have h := List.mem_singleton.mp h2
          exact ⟨[("K", "2")], by rw [h]⟩)
    (by intro s hs
        have h := List.mem_singleton.mp hs
        exact ⟨[("K", "1")], by rw [h]⟩)
    rfl

end Prettyconf
